import Mathlib

/-!
Verification development for the Alex conversational-AI backend.

This file shallowly embeds the core logic of the repository in Lean 4 and
proves (or refutes) the testable properties of its specification:

* `app/services/livekit_agno_plugin.py` — the TTS text sanitizer
  `_sanitize_for_tts` (a pipeline of Python `re.sub` passes) and the
  voice event-to-chunk mapping `_to_chat_chunk`;
* `app/services/agno_service.py` — the SSE stream translation
  `chat_stream` and session-id resolution;
* `app/tools/send_document.py` — the retrying webhook sender;
* `app/services/diagnostics_service.py` — the structured diagnostics
  extraction.

Python machine-level details are modelled as follows: strings are Lean
`String`s (lists of `Char`s); Python truthiness of an optional string is
captured by `Option String` plus emptiness checks exactly where the source
tests truthiness; exceptions become `Except`/explicit outcome sums; each
`re.sub` is hand-compiled to a character-list scanner with the same
leftmost-match, greedy/lazy backtracking behaviour as the Python `re`
engine on the concrete pattern.  The scanners take a fuel argument for
structural recursion; every match consumes at least one character, so fuel
`length + 1` always suffices and the fuel-zero fallback is unreachable at
the call sites below.
-/

/-! ## Character helpers (Python `\s`, `\d` on ASCII text, `str.strip`) -/

/-- ASCII whitespace as matched by Python `\s` / stripped by `str.strip`. -/
def isWsChar (c : Char) : Bool :=
  c = ' ' || c = '\t' || c = '\n' || c = '\r' || c = '\x0b' || c = '\x0c'

/-- Number of leading characters of `l` satisfying `p`. -/
def leadCount (p : Char → Bool) : List Char → Nat
  | [] => 0
  | c :: cs => if p c then leadCount p cs + 1 else 0

/-- Does the list end with a newline?  Used to track whether a scanner
resumes at a line start after consuming a match. -/
def endsNL (l : List Char) : Bool := l.getLast? = some '\n'

/-! ## `_sanitize_for_tts` (livekit_agno_plugin.py lines 129-154)

Each `re.sub` pass of the source becomes one scanner below, in source
order. -/

/-- Embeds `re.sub(r"#{1,6}\s*", "", text)`: at a `#`, the greedy `#{1,6}` takes
up to six hashes and `\s*` the following whitespace run; both removed. -/
def headerScan : Nat → List Char → List Char
  | 0, l => l
  | _ + 1, [] => []
  | fuel + 1, c :: cs =>
    if c = '#' then
      let t := min 6 (leadCount (fun x => x = '#') (c :: cs))
      let rest := (c :: cs).drop t
      let w := leadCount isWsChar rest
      headerScan fuel (rest.drop w)
    else c :: headerScan fuel cs

/-- Match for `M{1,3}(.*?)M{1,3}` at a position whose head is the marker
`M`; `cs` is the tail after that head.  Returns the captured group and the
number of extra characters consumed from `cs`.  Backtracking order of the
Python engine: the opening run is greedy (up to 3), the capture is lazy
(`.` does not cross newlines), the closing run is greedy (up to 3); if no
closing marker is reachable the opening run gives back one marker, after
which the leftover marker closes immediately. -/
def emphMatch (m : Char) (cs : List Char) : Option (List Char × Nat) :=
  let r := leadCount (fun x => x = m) cs + 1
  if 4 ≤ r then
    some ([], 2 + min 3 (r - 3))
  else
    let rest := cs.drop (r - 1)
    let cl := leadCount (fun x => !(x = m) && !(x = '\n')) rest
    let rest2 := rest.drop cl
    match rest2.head? with
    | some x =>
      if x = m then
        let r2 := leadCount (fun y => y = m) rest2
        some (rest.take cl, (r - 1) + cl + min 3 r2)
      else if 2 ≤ r then some ([], r - 1) else none
    | none => if 2 ≤ r then some ([], r - 1) else none

/-- Embeds `re.sub(r"\*{1,3}(.*?)\*{1,3}", r"\1", text)` and the identical `_`
pattern: paired emphasis markers collapse to the captured inner text. -/
def emphScan (m : Char) : Nat → List Char → List Char
  | 0, l => l
  | _ + 1, [] => []
  | fuel + 1, c :: cs =>
    if c = m then
      match emphMatch m cs with
      | some (cap, k) => cap ++ emphScan m fuel (cs.drop k)
      | none => c :: emphScan m fuel cs
    else c :: emphScan m fuel cs

/-- Embeds `re.sub(r"`([^`]*)`", r"\1", text)`: an inline code span collapses to
its contents; the greedy `[^`]*` forces the closing backtick to be the
next backtick after the span. -/
def codeScan : Nat → List Char → List Char
  | 0, l => l
  | _ + 1, [] => []
  | fuel + 1, c :: cs =>
    if c = '`' then
      let nb := leadCount (fun x => !(x = '`')) cs
      if (cs.drop nb).head? = some '`' then
        cs.take nb ++ codeScan fuel (cs.drop (nb + 1))
      else c :: codeScan fuel cs
    else c :: codeScan fuel cs

/-- Index of the first occurrence of three consecutive backticks. -/
def fenceIdx : List Char → Option Nat
  | [] => none
  | c :: cs =>
    if c = '`' && cs.take 2 = ['`', '`'] then some 0
    else (fenceIdx cs).map (· + 1)

/-- Embeds `re.sub(r"```[\s\S]*?```", "", text)`: a fenced block (lazy interior)
is removed entirely. -/
def fenceScan : Nat → List Char → List Char
  | 0, l => l
  | _ + 1, [] => []
  | fuel + 1, c :: cs =>
    if c = '`' ∧ cs.take 2 = ['`', '`'] then
      match fenceIdx (cs.drop 2) with
      | some i => fenceScan fuel ((cs.drop 2).drop (i + 3))
      | none => c :: fenceScan fuel cs
    else c :: fenceScan fuel cs

/-- Match for `\[([^\]]+)\]\([^)]+\)` at a position whose head is `[`;
`cs` is the tail.  Both character classes are greedy and exclude their
closing delimiter, so the match shape is forced. -/
def linkMatch (cs : List Char) : Option (List Char × Nat) :=
  let t := leadCount (fun x => !(x = ']')) cs
  if t = 0 then none
  else if (cs.drop t).head? = some ']' ∧ (cs.drop (t + 1)).head? = some '(' then
    let rest := cs.drop (t + 2)
    let u := leadCount (fun x => !(x = ')')) rest
    if u = 0 then none
    else if (rest.drop u).head? = some ')' then
      some (cs.take t, t + 2 + u + 1)
    else none
  else none

/-- Embeds `re.sub(r"\[([^\]]+)\]\([^)]+\)", r"\1", text)`: a markdown link
collapses to its anchor text. -/
def linkScan : Nat → List Char → List Char
  | 0, l => l
  | _ + 1, [] => []
  | fuel + 1, c :: cs =>
    if c = '[' then
      match linkMatch cs with
      | some (cap, k) => cap ++ linkScan fuel (cs.drop k)
      | none => c :: linkScan fuel cs
    else c :: linkScan fuel cs

/-- Match for `(?m)^\s*[-*•]\s+` at a line start.  `\s*` is greedy and the
bullet class cannot match whitespace, so the bullet must be the first
non-whitespace character; `\s+` then takes the maximal whitespace run.
Returns characters consumed and whether the consumed text ends in a
newline (the resumption position's line-start flag). -/
def bulletMatch (l : List Char) : Option (Nat × Bool) :=
  let w := leadCount isWsChar l
  match (l.drop w).head? with
  | some b =>
    if b = '-' || b = '*' || b = '•' then
      let bs := l.drop (w + 1)
      let w2 := leadCount isWsChar bs
      if w2 = 0 then none
      else some (w + 1 + w2, endsNL (bs.take w2))
    else none
  | none => none

/-- Embeds `re.sub(r"(?m)^\s*[-*•]\s+", "", text)`: leading bullet markers are
removed.  The scanner tracks whether the current position is a line
start. -/
def bulletScan : Nat → Bool → List Char → List Char
  | 0, _, l => l
  | _ + 1, _, [] => []
  | fuel + 1, atLS, c :: cs =>
    if atLS then
      match bulletMatch (c :: cs) with
      | some (k, nl) => bulletScan fuel nl ((c :: cs).drop k)
      | none => c :: bulletScan fuel (c = '\n') cs
    else c :: bulletScan fuel (c = '\n') cs

/-- Match for `(?m)^\s*\d+\.\s+` at a line start: optional whitespace, a
digit run, a literal dot, then at least one whitespace character. -/
def numberedMatch (l : List Char) : Option (Nat × Bool) :=
  let w := leadCount isWsChar l
  let rest := l.drop w
  let d := leadCount Char.isDigit rest
  if d = 0 then none
  else if (rest.drop d).head? = some '.' then
    let bs := rest.drop (d + 1)
    let w2 := leadCount isWsChar bs
    if w2 = 0 then none
    else some (w + d + 1 + w2, endsNL (bs.take w2))
  else none

/-- Embeds `re.sub(r"(?m)^\s*\d+\.\s+", "", text)`: leading numbered-list markers
are removed. -/
def numberedScan : Nat → Bool → List Char → List Char
  | 0, _, l => l
  | _ + 1, _, [] => []
  | fuel + 1, atLS, c :: cs =>
    if atLS then
      match numberedMatch (c :: cs) with
      | some (k, nl) => numberedScan fuel nl ((c :: cs).drop k)
      | none => c :: numberedScan fuel (c = '\n') cs
    else c :: numberedScan fuel (c = '\n') cs

def isHruleChar (c : Char) : Bool := c = '-' || c = '*' || c = '_'

/-- Index of the last newline in `l`, if any. -/
def lastNLIdx : List Char → Option Nat
  | [] => none
  | c :: cs =>
    match lastNLIdx cs with
    | some i => some (i + 1)
    | none => if c = '\n' then some 0 else none

/-- Match for `(?m)^[-*_]{3,}\s*$` at a line start: at least three rule
characters, then greedy `\s*`; multiline `$` matches at end of string or
just before a newline, so the whitespace run is consumed up to the end of
the string, or up to (excluding) its last newline. -/
def hruleMatch (l : List Char) : Option (Nat × Bool) :=
  let k := leadCount isHruleChar l
  if k < 3 then none
  else
    let rest := l.drop k
    let m := leadCount isWsChar rest
    if rest.drop m = [] then
      some (k + m, endsNL (l.take (k + m)))
    else
      match lastNLIdx (rest.take m) with
      | some j => some (k + j, endsNL (l.take (k + j)))
      | none => none

/-- Embeds `re.sub(r"(?m)^[-*_]{3,}\s*$", "", text)`: horizontal-rule lines are
removed (the trailing newline of the line survives, since `$` stops before
it). -/
def hruleScan : Nat → Bool → List Char → List Char
  | 0, _, l => l
  | _ + 1, _, [] => []
  | fuel + 1, atLS, c :: cs =>
    if atLS then
      match hruleMatch (c :: cs) with
      | some (k, nl) => hruleScan fuel nl ((c :: cs).drop k)
      | none => c :: hruleScan fuel (c = '\n') cs
    else c :: hruleScan fuel (c = '\n') cs

/-- Embeds `re.sub(r"\n{2,}", " ", text)`: a run of two or more newlines becomes
a single space. -/
def nlMultiScan : Nat → List Char → List Char
  | 0, l => l
  | _ + 1, [] => []
  | fuel + 1, c :: cs =>
    if c = '\n' && (leadCount (fun x => x = '\n') cs + 1) ≥ 2 then
      ' ' :: nlMultiScan fuel (cs.drop (leadCount (fun x => x = '\n') cs))
    else c :: nlMultiScan fuel cs

/-- Embeds `re.sub(r"\n", " ", text)`: each remaining newline becomes a space. -/
def nlSingle (l : List Char) : List Char := l.map fun c => if c = '\n' then ' ' else c

/-- Embeds `re.sub(r" {2,}", " ", text)`: a run of two or more spaces collapses
to one. -/
def spaceScan : Nat → List Char → List Char
  | 0, l => l
  | _ + 1, [] => []
  | fuel + 1, c :: cs =>
    if c = ' ' && (leadCount (fun x => x = ' ') cs + 1) ≥ 2 then
      ' ' :: spaceScan fuel (cs.drop (leadCount (fun x => x = ' ') cs))
    else c :: spaceScan fuel cs

/-- Python `str.strip()` on ASCII whitespace. -/
def stripChars (l : List Char) : List Char :=
  ((l.dropWhile isWsChar).reverse.dropWhile isWsChar).reverse

/-- The final whitespace-normalisation stage of the sanitizer (source
lines 149-154): newline collapsing, newline-to-space, space collapsing,
strip. -/
def wsNormalizeL (l : List Char) : List Char :=
  let a := nlMultiScan (l.length + 1) l
  let b := nlSingle a
  let c := spaceScan (b.length + 1) b
  stripChars c

/-- Embeds `_sanitize_for_tts` (livekit_agno_plugin.py 129-154): the thirteen
`re.sub`/`strip` passes applied in source order. -/
def sanitizeL (l0 : List Char) : List Char :=
  let l1 := headerScan (l0.length + 1) l0
  let l2 := emphScan '*' (l1.length + 1) l1
  let l3 := emphScan '_' (l2.length + 1) l2
  let l4 := codeScan (l3.length + 1) l3
  let l5 := fenceScan (l4.length + 1) l4
  let l6 := linkScan (l5.length + 1) l5
  let l7 := bulletScan (l6.length + 1) true l6
  let l8 := numberedScan (l7.length + 1) true l7
  let l9 := hruleScan (l8.length + 1) true l8
  wsNormalizeL l9

/-- Embeds `_sanitize_for_tts` on `String`. -/
def sanitize (s : String) : String := ⟨sanitizeL s.data⟩

/-- The whitespace-normalisation stage on `String`. -/
def wsNormalize (s : String) : String := ⟨wsNormalizeL s.data⟩

/-- Characters that can trigger one of the markdown-rewriting passes of
the sanitizer.  `.` is included because the numbered-list pattern needs a
literal dot; `-`, `*`, `•`, `_` cover bullets, emphasis and rules. -/
def mdChar (c : Char) : Bool :=
  c = '#' || c = '*' || c = '_' || c = '`' || c = '[' || c = '-' || c = '•' || c = '.'

/-- Text with no markdown, read as: none of the marker characters occur. -/
def noMarkdown (s : String) : Bool := s.data.all fun c => !(mdChar c)

/-! ## `chat_stream` (agno_service.py lines 242-373)

The event stream delivered by `agent.arun(..., stream=True)` is modelled
as the list of events the generator received before the iteration ended,
together with how it ended: normally (`exc = none`) or by raising an
exception whose message is `some m`.  The generator itself never
re-raises: it is a total function from that input to the list of SSE
frames it yields.  The wall-clock `execution_time` carried by the `done`
frame is not modelled.  Initialisation (`ensure_initialized`, lines
268-273) happens before the `try` block and before any frame is yielded;
the claims quantify over the event sequence consumed inside the `try`,
which is what this function embeds. -/

/-- The Agno run events discriminated by `chat_stream` (lines 306-357).
`runError` carries `getattr(chunk, "error", ...)`, hence an `Option`;
`runContent`'s possibly-missing/empty content is modelled as `""` being
falsy, matching the `if chunk.content:` test. -/
inductive RunEvent where
  | runStarted
  | toolCallStarted (toolName : String) (toolArgs : String)
  | toolCallCompleted (toolName : String) (result : Option String)
  | runContent (content : String)
  | runContentCompleted
  | runCompleted
  | runError (error : Option String)
  | runOutputEvent (content : String)
  | unknownEvent (typeName : String)
deriving DecidableEq, Repr

/-- The SSE frames emitted by `chat_stream` (one per `yield`). -/
inductive Frame where
  | session (sessionId : String)
  | toolStart (tool : String) (icon : String) (action : String) (args : String)
  | toolComplete (tool : String) (icon : String) (action : String) (resultPreview : String)
  | content (text : String)
  | error (msg : String)
  | done
deriving DecidableEq, Repr

/-- Embeds `tool_action_map` (lines 280-286). -/
def toolActionLookup (toolName : String) : Option (String × String) :=
  if toolName = "duckduckgo_search" then some ("🔍", "Searching the web")
  else if toolName = "duckduckgo_news" then some ("📰", "Searching news")
  else if toolName = "run_sql_query" then some ("💾", "Querying database")
  else if toolName = "describe_table" then some ("📋", "Checking table structure")
  else if toolName = "list_tables" then some ("📋", "Listing database tables")
  else none

/-- Frames yielded for one event by the `isinstance` chain of lines
306-357.  Note the completed-tool yield hardcodes the checkmark icon and
appends " completed" to the mapped action, and truncates `args` to 200 and
`result_preview` to 500 characters, as in the source. -/
def frameOf : RunEvent → List Frame
  | .runStarted => []
  | .toolCallStarted n a =>
    let info := (toolActionLookup n).getD ("🔧", "Using " ++ n)
    [.toolStart n info.1 info.2 (a.take 200)]
  | .toolCallCompleted n r =>
    let info := (toolActionLookup n).getD ("✅", "Completed " ++ n)
    let preview := match r with
      | some s => if s = "" then "" else s.take 500
      | none => ""
    [.toolComplete n "✅" (info.2 ++ " completed") preview]
  | .runContent c => if c = "" then [] else [.content c]
  | .runContentCompleted => []
  | .runCompleted => []
  | .runError e => [.error (e.getD "Unknown error")]
  | .runOutputEvent _ => []
  | .unknownEvent _ => []

/-- Embeds `chat_stream` frame sequence for one request: the leading `session`
frame (line 290), the per-event frames of the loop (lines 303-357), and
the terminal frame — `done` (line 366) when the event iteration finished
normally, or the single `error` frame of the `except` handler (line 373)
when it raised with message `m`. -/
def chatStream (sessionId : String) (events : List RunEvent) (exc : Option String) : List Frame :=
  (Frame.session sessionId :: (events.map frameOf).flatten) ++
    [match exc with
     | none => Frame.done
     | some m => Frame.error m]

/-! ## Session-id resolution (agno_service.py 211-213 and 275-277) -/

def uuidHexDigit (n : Nat) : Char :=
  if n < 10 then Char.ofNat ('0'.toNat + n) else Char.ofNat ('a'.toNat + (n - 10))

/-- The 32 hex digits of `str(uuid.uuid4())` for a 128-bit random value
`r` (most significant digit first): `uuid.uuid4()` forces the version
nibble (hex digit 12) to `4` and the variant nibble (hex digit 16) to one
of `8,9,a,b`. -/
def uuid4Chars (r : Nat) : List Char :=
  let base := (List.range 32).map fun i => uuidHexDigit (r / 16 ^ (31 - i) % 16)
  let variant := uuidHexDigit (8 + r / 16 ^ 15 % 4)
  (base.set 12 '4').set 16 variant

/-- Embeds `str(uuid.uuid4())`: the canonical 8-4-4-4-12 dashed form. -/
def uuid4String (r : Nat) : String :=
  let h := uuid4Chars r
  ⟨(h.take 8) ++ '-' :: ((h.drop 8).take 4) ++ '-' :: ((h.drop 12).take 4)
    ++ '-' :: ((h.drop 16).take 4) ++ '-' :: (h.drop 20)⟩

/-- Embeds `if not session_id: session_id = str(uuid.uuid4())` — identical in
`chat` (lines 211-213) and `chat_stream` (lines 275-277).  Python
truthiness: both `None` and the empty string are replaced. -/
def resolveSessionId (sessionId : Option String) (r : Nat) : String :=
  match sessionId with
  | none => uuid4String r
  | some s => if s = "" then uuid4String r else s

/-- Embeds `chat_stream` including its session-id resolution (lines 275-290). -/
def chatStreamFrames (sessionId : Option String) (r : Nat)
    (events : List RunEvent) (exc : Option String) : List Frame :=
  chatStream (resolveSessionId sessionId r) events exc

/-! ## `SendDocumentTool` (send_document.py)

The external HTTP endpoint (`httpx.post`) is modelled as a function from
the attempt index to the outcome observed on that attempt: a response
with some status code, a timeout (`httpx.TimeoutException`), or a
connection failure (`httpx.ConnectError`). -/

inductive AttemptResult where
  | response (status : Nat)
  | timeoutErr
  | connectErr
deriving DecidableEq, Repr

/-- The exception kinds `_post` can raise after exhausting its retries:
`httpx.HTTPStatusError` built for a ≥ 500 response, the propagated
`httpx.TimeoutException`, or the propagated `httpx.ConnectError`. -/
inductive PostExc where
  | statusErr (code : Nat)
  | timeoutExc
  | connectExc
deriving DecidableEq, Repr

def MAX_RETRIES : Nat := 3
def RETRY_BACKOFF : List Nat := [1, 2, 4]

/-- The retry loop of `_post` (lines 26-54): for each attempt, call the
endpoint; a status `< 500` returns immediately, otherwise (or on
timeout/connect failure) record the failure as `last_exception`, sleep
`RETRY_BACKOFF[attempt]` when further attempts remain, and retry.  When
the loop ends, the last exception is raised.  Returns (number of endpoint
calls, sleeps performed in seconds, outcome).  The `getD` default in the
base case is unreachable: the loop runs at least once and every iteration
either returns or records an exception. -/
def postGo (endpoint : Nat → AttemptResult) (attempt : Nat) (lastExc : Option PostExc) :
    Nat → Nat × List Nat × Except PostExc Nat
  | 0 => (0, [], .error (lastExc.getD (.statusErr 0)))
  | remaining + 1 =>
    match endpoint attempt with
    | .response s =>
      if s < 500 then (1, [], .ok s)
      else
        let waits := if attempt < MAX_RETRIES - 1 then [RETRY_BACKOFF.getD attempt 0] else []
        let next := postGo endpoint (attempt + 1) (some (.statusErr s)) remaining
        (next.1 + 1, waits ++ next.2.1, next.2.2)
    | .timeoutErr =>
        let waits := if attempt < MAX_RETRIES - 1 then [RETRY_BACKOFF.getD attempt 0] else []
        let next := postGo endpoint (attempt + 1) (some .timeoutExc) remaining
        (next.1 + 1, waits ++ next.2.1, next.2.2)
    | .connectErr =>
        let waits := if attempt < MAX_RETRIES - 1 then [RETRY_BACKOFF.getD attempt 0] else []
        let next := postGo endpoint (attempt + 1) (some .connectExc) remaining
        (next.1 + 1, waits ++ next.2.1, next.2.2)

/-- Embeds `SendDocumentTool._post(payload, headers)`. -/
def post (endpoint : Nat → AttemptResult) : Nat × List Nat × Except PostExc Nat :=
  postGo endpoint 0 none MAX_RETRIES

/-- Embeds `SendDocumentTool.send_document` (lines 56-94): calls `_post`, then
`response.raise_for_status()` (which raises `httpx.HTTPStatusError` for
any 4xx/5xx status), and maps every failure to a human-readable string.
All exceptions `_post` can produce are subclasses of `httpx.HTTPError`
and are caught, most specific first; the function is total.  Returns the
result string and the number of delivery attempts made. -/
def sendDocument (endpoint : Nat → AttemptResult) (title : String) : String × Nat :=
  let r := post endpoint
  match r.2.2 with
  | .ok s =>
    if 400 ≤ s then (s!"Failed to send document '{title}': received status {s}.", r.1)
    else (s!"Document '{title}' has been sent successfully.", r.1)
  | .error (.statusErr code) =>
    (s!"Failed to send document '{title}': received status {code}.", r.1)
  | .error .timeoutExc =>
    (s!"Failed to send document '{title}': the request timed out after {MAX_RETRIES} attempts.", r.1)
  | .error .connectExc =>
    (s!"Failed to send document '{title}': could not reach the delivery service after {MAX_RETRIES} attempts.", r.1)

/-! ## `DiagnosticsService.diagnose` (diagnostics_service.py 153-194)

Python's `json` module is an external collaborator; `json.loads` is taken
as a parameter `loads : String → Option JVal` (`none` = the call raised).
The agent's `response.content` is modelled by what the source
discriminates: a validated `DiagnosticsOutput` instance, a string, some
other (non-string) value, or a response without a `content` attribute. -/

/-- Python values produced by `json.loads`. -/
inductive JVal where
  | jnull
  | jbool (b : Bool)
  | jnum (lexeme : String)
  | jstr (s : String)
  | jarr (xs : List JVal)
  | jobj (fields : List (String × JVal))

/-- Python `dict.get` on an object decoded from JSON (later duplicate
keys overwrite earlier ones). -/
def jobjGet (fields : List (String × JVal)) (k : String) : Option JVal :=
  (fields.reverse.find? fun p => p.1 = k).map Prod.snd

/-- The agent response content as discriminated by lines 166-178. -/
inductive RespContent where
  | structured (diags : List String)
  | text (s : String)
  | nonStr
  | missing
deriving DecidableEq, Repr

/-- The diagnostics-extraction of `diagnose` (lines 166-186): a
structured `DiagnosticsOutput` is `model_dump`ed and its `diagnostics`
key read back; a string is fed to `json.loads`, whose failure is
swallowed into `{"diagnostics": []}` by the bare `except`; the value is
then read with `.get("diagnostics", [])` — which, on a decoded non-dict,
raises `AttributeError` outside that inner `try`, so the outer handler
(lines 192-194) re-raises (`Except.error`).  A non-string content makes
`json.loads` raise `TypeError`, which the bare `except` also swallows; a
response without `content` yields the empty default. -/
def diagnose (loads : String → Option JVal) (c : RespContent) : Except Unit JVal :=
  match c with
  | .structured ds => .ok (JVal.jarr (ds.map JVal.jstr))
  | .text s =>
    match loads s with
    | none => .ok (JVal.jarr [])
    | some (JVal.jobj fields) => .ok ((jobjGet fields "diagnostics").getD (JVal.jarr []))
    | some _ => .error ()
  | .nonStr => .ok (JVal.jarr [])
  | .missing => .ok (JVal.jarr [])

/-! ## `_to_chat_chunk` (livekit_agno_plugin.py 157-178)

The function receives `Any`; its input universe is abstracted by exactly
what it discriminates: is the event a `RunContentEvent` (whose `content`
is used unconditionally, truthiness-checked later), a `RunOutput` with
truthy content, or any other object with/without a truthy `content`
attribute (rendered through `str`). -/

inductive VoiceEvent where
  | contentEvent (content : String)
  | runOutputFinal (content : String)
  | otherWithContent (typeName : String) (content : String)
  | otherNoContent (typeName : String)
deriving DecidableEq, Repr

/-- The content-assignment chain of `_to_chat_chunk` (lines 159-168): a
`RunContentEvent`'s content is taken unconditionally (its truthiness is
only tested later); a `RunOutput`'s or any other object's content is
taken only when truthy. -/
def eventContent : VoiceEvent → Option String
  | .contentEvent c => some c
  | .runOutputFinal c => if c = "" then none else some c
  | .otherWithContent _ c => if c = "" then none else some c
  | .otherNoContent _ => none

/-- Embeds `_to_chat_chunk`: extract content per the `isinstance`/`hasattr`
chain, sanitize it if truthy, and emit a chat chunk only if the sanitized
text is still truthy.  `some s` models returning a `ChatChunk` whose
delta content is `s`; `none` models returning `None`. -/
def toChatChunk (e : VoiceEvent) : Option String :=
  match eventContent e with
  | none => none
  | some c =>
    if c = "" then none
    else
      let s := sanitize c
      if s = "" then none else some s

/-! ## Tool freshness (agno_service.py 206-209, livekit_agno_plugin.py
97-117, livekit_agent.py 102-126)

Tool instances are given identities: `_create_sql_tools()` returns a new
`SQLTools` object each call, modelled by a serial counter; the
`DuckDuckGoTools` instance is created once and cached.  One service state
carries the cached stable-tool identity, the list currently bound to the
agent, and the next fresh serial. -/

inductive ToolRef where
  | ddg (serial : Nat)
  | sql (serial : Nat)
deriving DecidableEq, Repr

structure SvcState where
  ddgSerial : Nat
  tools : List ToolRef
  next : Nat
deriving DecidableEq, Repr

/-- An HTTP `chat`/`chat_stream`/`diagnose` invocation: a fresh
`SQLTools` is constructed and the agent's tool list rebound to
`[self.ddg_tools, fresh_sql_tools]` immediately before `arun` (lines
206-209, 270-273 of agno_service.py; 133-136 of diagnostics_service.py).
Returns the new state and the tool list bound at this invocation. -/
def refreshedInvoke (s : SvcState) : SvcState × List ToolRef :=
  let t := [ToolRef.ddg s.ddgSerial, ToolRef.sql s.next]
  ({ s with tools := t, next := s.next + 1 }, t)

/-- A voice-session turn: `AgnoStream._run` (livekit_agno_plugin.py
97-117) calls `self._agent.arun` without touching the agent's bound tool
list. -/
def voiceTurnInvoke (s : SvcState) : SvcState × List ToolRef := (s, s.tools)

/-- Embeds `create_agno_agent` (livekit_agent.py 102-126): the voice agent's
tool list is built once when the room session starts. -/
def voiceSessionInit (d n : Nat) : SvcState :=
  { ddgSerial := d, tools := [ToolRef.ddg d, ToolRef.sql n], next := n + 1 }

/-- The tool lists bound at each of `k` successive invocations. -/
def runInvocations (f : SvcState → SvcState × List ToolRef) : SvcState → Nat → List (List ToolRef)
  | _, 0 => []
  | s, k + 1 => (f s).2 :: runInvocations f (f s).1 k

/-- The serials of the ephemeral (SQL) tools in one bound tool list. -/
def sqlSerialsOf (t : List ToolRef) : List Nat :=
  t.filterMap fun r => match r with | ToolRef.sql n => some n | _ => none

/-! ## Frame and event predicates used by the stream theorems -/

def isSessionFrame : Frame → Bool
  | .session _ => true
  | _ => false

def isErrorFrame : Frame → Bool
  | .error _ => true
  | _ => false

def isDoneFrame : Frame → Bool
  | .done => true
  | _ => false

def isRunErrorEvent : RunEvent → Bool
  | .runError _ => true
  | _ => false

/-! ## Concrete fixtures for the diagnostics claims -/

/-- Six diagnosis strings — one more than the documented bound of 5. -/
def sixDiagnostics : List JVal :=
  [.jstr "Bad battery", .jstr "Faulty starter", .jstr "Low oil",
   .jstr "Clogged filter", .jstr "Worn belt", .jstr "Dead fuse"]

/-- A well-formed JSON object carrying six diagnoses. -/
def sixDiagJson : String :=
  "\x7b\"diagnostics\": [\"Bad battery\", \"Faulty starter\", \"Low oil\", \"Clogged filter\", \"Worn belt\", \"Dead fuse\"]\x7d"

/-- Modelled from the external `json` standard library: the documented
value of `json.loads` on the literal `sixDiagJson` (a flat object with
one key holding an array of six strings); elsewhere unspecified. -/
def loadsOnSixDiagJson : String → Option JVal := fun s =>
  if s = sixDiagJson then some (.jobj [("diagnostics", .jarr sixDiagnostics)]) else none

/-! # Theorems

First some bookkeeping lemmas about the frame sequence, then one theorem
per claim of the specification (with counterexamples and witnesses where
applicable). -/

theorem frameOf_countP_session (e : RunEvent) :
    (frameOf e).countP isSessionFrame = 0 := by
  cases e <;> first | rfl | (simp only [frameOf]; split <;> rfl)

theorem frameOf_countP_done (e : RunEvent) :
    (frameOf e).countP isDoneFrame = 0 := by
  cases e <;> first | rfl | (simp only [frameOf]; split <;> rfl)

theorem frameOf_countP_error (e : RunEvent) :
    (frameOf e).countP isErrorFrame = if isRunErrorEvent e then 1 else 0 := by
  cases e <;> first | rfl | (simp only [frameOf]; split <;> rfl)

theorem countP_flatten {α : Type} (p : α → Bool) (L : List (List α)) :
    L.flatten.countP p = (L.map fun l => l.countP p).sum := by
  induction L with
  | nil => rfl
  | cons l L ih => simp [List.countP_append, ih]

theorem sum_map_ite_count {α : Type} (p : α → Bool) (l : List α) :
    (l.map fun a => if p a then (1 : Nat) else 0).sum = l.countP p := by
  induction l with
  | nil => rfl
  | cons a l ih => by_cases h : p a <;> simp [List.countP_cons, h, ih, Nat.add_comm]

theorem chatStream_body_session (events : List RunEvent) :
    ((events.map frameOf).flatten).countP isSessionFrame = 0 := by
  rw [countP_flatten]
  apply List.sum_eq_zero
  intro x hx
  simp only [List.map_map, List.mem_map, Function.comp] at hx
  obtain ⟨e, _, rfl⟩ := hx
  exact frameOf_countP_session e

theorem chatStream_body_error (events : List RunEvent) :
    ((events.map frameOf).flatten).countP isErrorFrame = events.countP isRunErrorEvent := by
  rw [countP_flatten, List.map_map]
  have h : events.map ((fun l => l.countP isErrorFrame) ∘ frameOf)
      = events.map fun e => if isRunErrorEvent e then (1 : Nat) else 0 :=
    List.map_congr_left fun e _ => frameOf_countP_error e
  rw [h, sum_map_ite_count]

theorem chatStream_head (sid : String) (events : List RunEvent) (exc : Option String) :
    (chatStream sid events exc).head? = some (Frame.session sid) := rfl

theorem chatStream_getLast (sid : String) (events : List RunEvent) (exc : Option String) :
    (chatStream sid events exc).getLast?
      = some (match exc with | none => Frame.done | some m => Frame.error m) := by
  unfold chatStream
  exact List.getLast?_concat _

/-- Claim C2. For every input event sequence, the frame sequence produced by
`chat_stream` begins with exactly one `session` frame and ends with a
`done` or `error` frame; when the underlying sequence raises during
iteration (with message `m`), the stream ends with that single `error`
frame and, being a total function of its input, never re-raises to the
consumer. -/
theorem c2_stream_envelope (sid : String) (events : List RunEvent) (exc : Option String) :
    (chatStream sid events exc).head? = some (Frame.session sid) ∧
    (chatStream sid events exc).countP isSessionFrame = 1 ∧
    (∃ f, (chatStream sid events exc).getLast? = some f ∧ (isDoneFrame f || isErrorFrame f) = true) ∧
    (∀ m, (chatStream sid events (some m)).getLast? = some (Frame.error m)) ∧
    (chatStream sid events none).getLast? = some Frame.done := by
  refine ⟨chatStream_head sid events exc, ?_, ?_,
    fun m => chatStream_getLast sid events (some m), chatStream_getLast sid events none⟩
  · unfold chatStream
    rw [List.cons_append, List.countP_cons, List.countP_append, chatStream_body_session]
    cases exc <;> rfl
  · exact ⟨_, chatStream_getLast sid events exc, by cases exc <;> rfl⟩

/-- Claim C1 (counterexample). The claim states that after a mid-stream
`RunError` event the frame sequence terminates without a `done` frame and
that `error`/`done` are mutually exclusive terminal frames.  On the code,
the `RunErrorEvent` arm of the loop (line 346-350) yields an `error`
frame but does not stop the loop, so the normal completion path (line
366) still emits `done`: a one-event stream `[RunError "boom"]` produces
`[session, error, done]`, ending with `done` after an `error` frame. -/
theorem c1_runError_stream_counterexample :
    chatStream "s" [RunEvent.runError (some "boom")] none
      = [Frame.session "s", Frame.error "boom", Frame.done] ∧
    (chatStream "s" [RunEvent.runError (some "boom")] none).getLast? = some Frame.done := by
  exact ⟨rfl, rfl⟩

/-- Claim C1 (amended). Every mid-stream `RunError` event yields exactly
one `error` frame, but the stream does not terminate there: when event
iteration completes normally the stream still ends with a `done` frame,
and the stream ends with an `error` frame only when the iteration itself
raises (in which case that terminal `error` frame is one more than the
per-event `error` frames). -/
theorem c1_runError_frames (sid : String) (events : List RunEvent) :
    (chatStream sid events none).countP isErrorFrame = events.countP isRunErrorEvent ∧
    (chatStream sid events none).getLast? = some Frame.done ∧
    ∀ m, (chatStream sid events (some m)).countP isErrorFrame
            = events.countP isRunErrorEvent + 1 ∧
         (chatStream sid events (some m)).getLast? = some (Frame.error m) := by
  refine ⟨?_, chatStream_getLast sid events none,
    fun m => ⟨?_, chatStream_getLast sid events (some m)⟩⟩
  · unfold chatStream
    rw [List.cons_append, List.countP_cons, List.countP_append, chatStream_body_error]
    simp [isErrorFrame, isSessionFrame, List.countP_cons]
  · unfold chatStream
    rw [List.cons_append, List.countP_cons, List.countP_append, chatStream_body_error]
    simp [isErrorFrame, isSessionFrame, List.countP_cons]

theorem uuid4Chars_length (r : Nat) : (uuid4Chars r).length = 32 := by
  simp [uuid4Chars]

theorem uuid4String_length (r : Nat) : (uuid4String r).length = 36 := by
  have h := uuid4Chars_length r
  simp [uuid4String, String.length, h]

/-- Claim C6 (counterexample). The claim states that a caller-supplied
`session_id` is always echoed back unchanged.  But `chat`/`chat_stream`
test `if not session_id:` (lines 212, 276), and Python treats the
supplied empty string as falsy: a caller-supplied `""` is replaced by a
fresh UUID instead of being echoed. -/
theorem c6_empty_session_id_counterexample :
    resolveSessionId (some "") 0 ≠ "" ∧ resolveSessionId (some "") 0 = uuid4String 0 := by
  constructor
  · intro h
    have h36 : (resolveSessionId (some "") 0).length = 36 := uuid4String_length 0
    rw [h] at h36
    simp at h36
  · rfl

/-- Claim C6 (amended). A supplied non-empty `session_id` is echoed back
unchanged; an absent `session_id` — and likewise a supplied empty string,
which the falsy test treats as absent — is replaced by a fresh
36-character UUID string, which is also the id sent in the leading
`session` frame of `chat_stream`. -/
theorem c6_session_id_amended (r : Nat) :
    (∀ s : String, s ≠ "" → resolveSessionId (some s) r = s) ∧
    (resolveSessionId none r).length = 36 ∧
    (resolveSessionId (some "") r).length = 36 ∧
    ∀ events exc,
      (chatStreamFrames none r events exc).head? = some (Frame.session (uuid4String r)) := by
  refine ⟨fun s hs => ?_, uuid4String_length r, uuid4String_length r, fun events exc => rfl⟩
  simp [resolveSessionId, hs]

/-- Witness for `c6_session_id_amended` at a concrete session id. -/
theorem c6_session_id_amended_witness :
    resolveSessionId (some "my-session") 7 = "my-session" ∧
    (resolveSessionId none 7).length = 36 :=
  ⟨(c6_session_id_amended 7).1 "my-session" (by decide), (c6_session_id_amended 7).2.1⟩

theorem post_waits (e : Nat → AttemptResult) :
    (post e).2.1 = [] ∨ (post e).2.1 = [1] ∨ (post e).2.1 = [1, 2] := by
  cases h0 : e 0 with
  | response s =>
    by_cases h0lt : s < 500
    · exact Or.inl (by simp [post, MAX_RETRIES, postGo, h0, h0lt])
    · cases h1 : e 1 with
      | response t =>
        by_cases h1lt : t < 500
        · exact Or.inr (Or.inl
            (by simp [post, MAX_RETRIES, RETRY_BACKOFF, postGo, h0, h0lt, h1, h1lt]))
        · refine Or.inr (Or.inr ?_)
          cases h2 : e 2 <;>
            simp [post, MAX_RETRIES, RETRY_BACKOFF, postGo, h0, h0lt, h1, h1lt, h2] <;>
            try (split <;> simp)
      | timeoutErr =>
        refine Or.inr (Or.inr ?_)
        cases h2 : e 2 <;>
          simp [post, MAX_RETRIES, RETRY_BACKOFF, postGo, h0, h0lt, h1, h2] <;>
          try (split <;> simp)
      | connectErr =>
        refine Or.inr (Or.inr ?_)
        cases h2 : e 2 <;>
          simp [post, MAX_RETRIES, RETRY_BACKOFF, postGo, h0, h0lt, h1, h2] <;>
          try (split <;> simp)
  | timeoutErr =>
    cases h1 : e 1 with
    | response t =>
      by_cases h1lt : t < 500
      · exact Or.inr (Or.inl
          (by simp [post, MAX_RETRIES, RETRY_BACKOFF, postGo, h0, h1, h1lt]))
      · refine Or.inr (Or.inr ?_)
        cases h2 : e 2 <;>
          simp [post, MAX_RETRIES, RETRY_BACKOFF, postGo, h0, h1, h1lt, h2] <;>
          try (split <;> simp)
    | timeoutErr =>
      refine Or.inr (Or.inr ?_)
      cases h2 : e 2 <;>
        simp [post, MAX_RETRIES, RETRY_BACKOFF, postGo, h0, h1, h2] <;>
        try (split <;> simp)
    | connectErr =>
      refine Or.inr (Or.inr ?_)
      cases h2 : e 2 <;>
        simp [post, MAX_RETRIES, RETRY_BACKOFF, postGo, h0, h1, h2] <;>
        try (split <;> simp)
  | connectErr =>
    cases h1 : e 1 with
    | response t =>
      by_cases h1lt : t < 500
      · exact Or.inr (Or.inl
          (by simp [post, MAX_RETRIES, RETRY_BACKOFF, postGo, h0, h1, h1lt]))
      · refine Or.inr (Or.inr ?_)
        cases h2 : e 2 <;>
          simp [post, MAX_RETRIES, RETRY_BACKOFF, postGo, h0, h1, h1lt, h2] <;>
          try (split <;> simp)
    | timeoutErr =>
      refine Or.inr (Or.inr ?_)
      cases h2 : e 2 <;>
        simp [post, MAX_RETRIES, RETRY_BACKOFF, postGo, h0, h1, h2] <;>
        try (split <;> simp)
    | connectErr =>
      refine Or.inr (Or.inr ?_)
      cases h2 : e 2 <;>
        simp [post, MAX_RETRIES, RETRY_BACKOFF, postGo, h0, h1, h2] <;>
        try (split <;> simp)

/-- Claim C4. Delivery attempts and backoff: a first response with status
`< 500` (any 4xx included) ends the loop after exactly 1 attempt; every
sleep performed is `RETRY_BACKOFF[attempt]`, so the sleep sequence of any
run is `[]`, `[1]` or `[1, 2]`; an endpoint answering 500 three times
receives exactly 3 attempts (sleeping 1s then 2s); a 4xx endpoint exactly
1 attempt; and an endpoint failing once with 500 then succeeding receives
exactly 2 attempts and produces the success message. -/
theorem c4_webhook_retry :
    (∀ (endpoint : Nat → AttemptResult) (s : Nat),
        endpoint 0 = AttemptResult.response s → s < 500 → (post endpoint).1 = 1) ∧
    (post (fun _ => .response 500)).1 = 3 ∧
    (post (fun _ => .response 500)).2.1 = [1, 2] ∧
    (∀ endpoint, (post endpoint).2.1 = [] ∨ (post endpoint).2.1 = [1]
        ∨ (post endpoint).2.1 = [1, 2]) ∧
    (post (fun _ => .response 404)).1 = 1 ∧
    sendDocument (fun n => if n = 0 then .response 500 else .response 200) "Guide"
        = ("Document 'Guide' has been sent successfully.", 2) := by
  refine ⟨?_, rfl, rfl, post_waits, rfl, rfl⟩
  intro endpoint s h hlt
  simp [post, MAX_RETRIES, postGo, h, hlt]

/-- Witness for `c4_webhook_retry`: its 4xx/first-attempt clause applied
to a concrete endpoint answering 404, and its sleep-schedule clause at a
concrete endpoint. -/
theorem c4_webhook_retry_witness :
    (post (fun _ => AttemptResult.response 404)).1 = 1 ∧
    ((post (fun _ => AttemptResult.timeoutErr)).2.1 = []
      ∨ (post (fun _ => AttemptResult.timeoutErr)).2.1 = [1]
      ∨ (post (fun _ => AttemptResult.timeoutErr)).2.1 = [1, 2]) :=
  ⟨c4_webhook_retry.1 (fun _ => .response 404) 404 rfl (by decide),
   c4_webhook_retry.2.2.2.1 (fun _ => .timeoutErr)⟩

/-- Claim C9. `send_document` always returns a human-readable string (it is
a total function of the endpoint's behaviour; every exception `_post` can
raise is caught): on success the string confirms delivery by document
title; an endpoint that always times out yields the "timed out after 3
attempts" message after 3 attempts; one that is always unreachable yields
the "could not reach the delivery service after 3 attempts" message after
3 attempts; a persistent server error `c ≥ 500` yields "received status
c" after 3 attempts; a first-attempt 4xx yields "received status s" after
exactly 1 attempt. -/
theorem c9_send_document_outcomes (endpoint : Nat → AttemptResult) (title : String) :
    ((∀ i, endpoint i = .timeoutErr) →
      sendDocument endpoint title
        = (s!"Failed to send document '{title}': the request timed out after {MAX_RETRIES} attempts.", 3)) ∧
    ((∀ i, endpoint i = .connectErr) →
      sendDocument endpoint title
        = (s!"Failed to send document '{title}': could not reach the delivery service after {MAX_RETRIES} attempts.", 3)) ∧
    (∀ c, 500 ≤ c → (∀ i, endpoint i = .response c) →
      sendDocument endpoint title
        = (s!"Failed to send document '{title}': received status {c}.", 3)) ∧
    (∀ s, endpoint 0 = .response s → s < 400 →
      sendDocument endpoint title
        = (s!"Document '{title}' has been sent successfully.", 1)) ∧
    (∀ s, endpoint 0 = .response s → 400 ≤ s → s < 500 →
      sendDocument endpoint title
        = (s!"Failed to send document '{title}': received status {s}.", 1)) := by
  refine ⟨fun h => ?_, fun h => ?_, fun c hc h => ?_, fun s h hs => ?_, fun s h h4 hs => ?_⟩
  · simp [sendDocument, post, MAX_RETRIES, RETRY_BACKOFF, postGo, h 0, h 1, h 2]
  · simp [sendDocument, post, MAX_RETRIES, RETRY_BACKOFF, postGo, h 0, h 1, h 2]
  · have hlt : ¬ c < 500 := by omega
    simp [sendDocument, post, MAX_RETRIES, RETRY_BACKOFF, postGo, h 0, h 1, h 2, hlt]
  · have hlt : s < 500 := by omega
    have h4 : ¬ 400 ≤ s := by omega
    simp [sendDocument, post, MAX_RETRIES, postGo, h, hlt, h4]
  · have hlt : s < 500 := by omega
    simp [sendDocument, post, MAX_RETRIES, postGo, h, hlt, h4]

/-- Witness for `c9_send_document_outcomes`: each clause applied to a
concrete endpoint and title. -/
theorem c9_send_document_outcomes_witness :
    sendDocument (fun _ => AttemptResult.timeoutErr) "Guide"
      = ("Failed to send document 'Guide': the request timed out after 3 attempts.", 3) ∧
    sendDocument (fun _ => AttemptResult.connectErr) "Guide"
      = ("Failed to send document 'Guide': could not reach the delivery service after 3 attempts.", 3) ∧
    sendDocument (fun _ => AttemptResult.response 503) "Guide"
      = ("Failed to send document 'Guide': received status 503.", 3) ∧
    sendDocument (fun _ => AttemptResult.response 200) "Guide"
      = ("Document 'Guide' has been sent successfully.", 1) ∧
    sendDocument (fun _ => AttemptResult.response 404) "Guide"
      = ("Failed to send document 'Guide': received status 404.", 1) :=
  ⟨(c9_send_document_outcomes (fun _ => .timeoutErr) "Guide").1 (fun _ => rfl),
   (c9_send_document_outcomes (fun _ => .connectErr) "Guide").2.1 (fun _ => rfl),
   (c9_send_document_outcomes (fun _ => .response 503) "Guide").2.2.1 503 (by decide) (fun _ => rfl),
   (c9_send_document_outcomes (fun _ => .response 200) "Guide").2.2.2.1 200 rfl (by decide),
   (c9_send_document_outcomes (fun _ => .response 404) "Guide").2.2.2.2 404 rfl (by decide) (by decide)⟩

/-- Claim C5 (counterexample). The claim states the returned diagnostics
list always has length ≤ 5.  The bound is enforced only by the pydantic
schema on an already-structured response; when the agent's content is a
string, `json.loads` (line 174) decodes it and the resulting list is
passed through unchecked (line 186).  With `json.loads` instantiated at
its documented value on a flat six-element object literal, `diagnose`
returns six diagnostics. -/
theorem c5_diagnose_counterexample :
    diagnose loadsOnSixDiagJson (.text sixDiagJson) = .ok (.jarr sixDiagnostics) ∧
    sixDiagnostics.length = 6 := by
  exact ⟨rfl, rfl⟩

/-- Claim C5 (amended). The ≤ 5 bound holds for structured (pydantic-
validated) content, whose list `diagnose` returns as-is; a string content
that fails to parse yields `[]` without raising, as do a non-string
content and a missing content attribute; but a string content parsing to
a JSON object is passed through without the length cap, and one parsing
to a non-object (e.g. a JSON array) raises out of `diagnose`. -/
theorem c5_diagnose_amended :
    (∀ (loads : String → Option JVal) (ds : List String), ds.length ≤ 5 →
      diagnose loads (.structured ds) = .ok (.jarr (ds.map JVal.jstr)) ∧
      (ds.map JVal.jstr).length ≤ 5) ∧
    (∀ (loads : String → Option JVal) (s : String), loads s = none →
      diagnose loads (.text s) = .ok (.jarr [])) ∧
    (∀ loads : String → Option JVal,
      diagnose loads .nonStr = .ok (.jarr []) ∧ diagnose loads .missing = .ok (.jarr [])) ∧
    (∀ (loads : String → Option JVal) (s : String) (xs : List JVal),
      loads s = some (.jarr xs) → diagnose loads (.text s) = .error ()) := by
  refine ⟨fun loads ds h => ⟨rfl, ?_⟩, fun loads s h => ?_, fun loads => ⟨rfl, rfl⟩,
    fun loads s xs h => ?_⟩
  · simpa using h
  · simp [diagnose, h]
  · simp [diagnose, h]

/-- Witness for `c5_diagnose_amended` at concrete content values. -/
theorem c5_diagnose_amended_witness :
    diagnose (fun _ => none) (.structured ["Bad battery", "Faulty starter"])
      = .ok (.jarr [.jstr "Bad battery", .jstr "Faulty starter"]) ∧
    diagnose (fun _ => none) (.text "not json\x7b") = .ok (.jarr []) ∧
    diagnose (fun _ => some (.jarr [])) (.text "[]") = .error () :=
  ⟨((c5_diagnose_amended.1 (fun _ => none) ["Bad battery", "Faulty starter"] (by decide)).1),
   c5_diagnose_amended.2.1 (fun _ => none) "not json\x7b" rfl,
   c5_diagnose_amended.2.2.2 (fun _ => some (.jarr [])) "[]" [] rfl⟩

/-- Claim C7 (counterexample). The claim states that only ContentDelta and
RunFinal-with-content events produce a voice chunk and every other event
kind produces none.  But `_to_chat_chunk`'s third branch (line 167)
accepts *any* object exposing a truthy `content` attribute, e.g. a
completed-event object carrying its content: such an event produces a
chunk. -/
theorem c7_voice_mapping_counterexample :
    toChatChunk (.otherWithContent "RunContentCompletedEvent" "tool result")
      = some "tool result" := by
  exact rfl

/-- Claim C7 (amended). Every chunk's text has passed through the sanitizer
applied to the event's extracted content; events without a (truthy)
content attribute produce no chunk; but chunk production is keyed on
carrying non-empty content, not on the event kind: any other event
exposing non-empty content also produces a chunk. -/
theorem c7_voice_mapping (e : VoiceEvent) :
    (∀ s, toChatChunk e = some s → ∃ c, eventContent e = some c ∧ s = sanitize c) ∧
    (∀ n, toChatChunk (.otherNoContent n) = none) ∧
    toChatChunk (.runOutputFinal "") = none ∧
    toChatChunk (.contentEvent "") = none ∧
    (∀ n c, c ≠ "" → sanitize c ≠ "" →
      toChatChunk (.otherWithContent n c) = some (sanitize c)) := by
  refine ⟨fun s hs => ?_, fun n => rfl, rfl, rfl, fun n c hc hsc => ?_⟩
  · unfold toChatChunk at hs
    cases hec : eventContent e with
    | none => rw [hec] at hs; exact absurd hs (by simp)
    | some c =>
      rw [hec] at hs
      refine ⟨c, rfl, ?_⟩
      by_cases h1 : c = ""
      · simp [h1] at hs
      · by_cases h2 : sanitize c = ""
        · simp [h1, h2] at hs
        · simp [h1, h2] at hs
          exact hs.symm
  · simp [toChatChunk, eventContent, hc, hsc]

/-- Witness for `c7_voice_mapping` at a concrete event. -/
theorem c7_voice_mapping_witness :
    (∃ c, eventContent (VoiceEvent.contentEvent "hi there") = some c ∧
      "hi there" = sanitize c) ∧
    toChatChunk (.otherWithContent "RunCompletedEvent" "All done") = some (sanitize "All done") :=
  ⟨(c7_voice_mapping (.contentEvent "hi there")).1 "hi there" rfl,
   (c7_voice_mapping (.contentEvent "hi there")).2.2.2.2 "RunCompletedEvent" "All done"
     (by decide) (by decide)⟩

/-- Claim C10. Every chunk emitted on the voice path has non-empty text,
and an event whose content sanitizes to the empty string produces no
chunk at all. -/
theorem c10_nonempty_chunks :
    (∀ e s, toChatChunk e = some s → s ≠ "") ∧
    (∀ e c, eventContent e = some c → sanitize c = "" → toChatChunk e = none) := by
  constructor
  · intro e s hs
    unfold toChatChunk at hs
    cases hec : eventContent e with
    | none => rw [hec] at hs; exact absurd hs (by simp)
    | some c =>
      rw [hec] at hs
      by_cases h1 : c = ""
      · simp [h1] at hs
      · by_cases h2 : sanitize c = ""
        · simp [h1, h2] at hs
        · simp [h1, h2] at hs
          rw [← hs]
          exact h2
  · intro e c hec hsc
    unfold toChatChunk
    rw [hec]
    by_cases h1 : c = "" <;> simp [h1, hsc]

/-- Witness for `c10_nonempty_chunks`: a concrete non-empty chunk, and a
concrete event (bullet-only text) whose content sanitizes to empty and is
dropped. -/
theorem c10_nonempty_chunks_witness :
    ("hello" : String) ≠ "" ∧ toChatChunk (VoiceEvent.contentEvent " * ") = none :=
  ⟨c10_nonempty_chunks.1 (.contentEvent "hello") "hello" rfl,
   c10_nonempty_chunks.2 (.contentEvent " * ") " * " rfl rfl⟩

/-- Claim C8 (counterexample). The claim requires a fresh ephemeral (SQL)
tool instance immediately before *any* agent invocation, including a
voice-session turn.  But `AgnoStream._run` invokes the voice agent
without any tool refresh: two successive turns of a voice session bind
the very same `SQLTools` instance (serial 1) built at session start, so
the second invocation reuses a stale ephemeral handle. -/
theorem c8_voice_stale_tools_counterexample :
    runInvocations voiceTurnInvoke (voiceSessionInit 0 1) 2
      = [[ToolRef.ddg 0, ToolRef.sql 1], [ToolRef.ddg 0, ToolRef.sql 1]] := by
  exact rfl

/-- Claim C8 (amended). For the HTTP paths (`chat`, `chat_stream`,
`diagnose`), every invocation binds exactly the cached stable tool plus
one freshly constructed SQL tool, all fresh serials pairwise distinct
across the invocations of a trace; a voice-session turn, by contrast,
invokes the agent with whatever tool list is currently bound — every turn
of the session reuses the same list built at session start. -/
theorem c8_tool_freshness (s : SvcState) (k : Nat) :
    runInvocations refreshedInvoke s k
      = (List.range' s.next k).map (fun n => [ToolRef.ddg s.ddgSerial, ToolRef.sql n]) ∧
    ((runInvocations refreshedInvoke s k).map sqlSerialsOf).flatten = List.range' s.next k ∧
    (List.range' s.next k).Nodup ∧
    runInvocations voiceTurnInvoke s k = List.replicate k s.tools := by
  refine ⟨?_, ?_, List.nodup_range' _ _ _ (by omega), ?_⟩
  · induction k generalizing s with
    | zero => rfl
    | succ k ih =>
      simp only [runInvocations, refreshedInvoke, List.range']
      rw [ih]
      rfl
  · induction k generalizing s with
    | zero => rfl
    | succ k ih =>
      simp only [runInvocations, refreshedInvoke, List.range', List.map_cons,
        List.flatten_cons]
      rw [ih]
      rfl
  · induction k generalizing s with
    | zero => rfl
    | succ k ih =>
      simp only [runInvocations, voiceTurnInvoke, List.replicate]
      rw [ih]

theorem leadCount_zero (p : Char → Bool) (l : List Char) (h : ∀ c ∈ l, p c = false) :
    leadCount p l = 0 := by
  cases l with
  | nil => rfl
  | cons c cs => simp [leadCount, h c (List.mem_cons_self c cs)]

theorem mem_of_drop_head? {l : List Char} {n : Nat} {b : Char}
    (h : (l.drop n).head? = some b) : b ∈ l := by
  cases hd : l.drop n with
  | nil => rw [hd] at h; exact absurd h (by simp)
  | cons x xs =>
    rw [hd] at h
    simp only [List.head?_cons, Option.some.injEq] at h
    exact List.drop_subset n l (hd ▸ (h ▸ List.mem_cons_self x xs))

theorem headerScan_id (fuel : Nat) (l : List Char) (h : ∀ c ∈ l, c ≠ '#') :
    headerScan fuel l = l := by
  induction fuel generalizing l with
  | zero => rfl
  | succ fuel ih =>
    cases l with
    | nil => rfl
    | cons c cs =>
      have hc : ¬ c = '#' := h c (List.mem_cons_self c cs)
      simp only [headerScan, if_neg hc]
      rw [ih cs fun x hx => h x (List.mem_cons_of_mem c hx)]

theorem emphScan_id (m : Char) (fuel : Nat) (l : List Char) (h : ∀ c ∈ l, c ≠ m) :
    emphScan m fuel l = l := by
  induction fuel generalizing l with
  | zero => rfl
  | succ fuel ih =>
    cases l with
    | nil => rfl
    | cons c cs =>
      have hc : ¬ c = m := h c (List.mem_cons_self c cs)
      simp only [emphScan, if_neg hc]
      rw [ih cs fun x hx => h x (List.mem_cons_of_mem c hx)]

theorem codeScan_id (fuel : Nat) (l : List Char) (h : ∀ c ∈ l, c ≠ '`') :
    codeScan fuel l = l := by
  induction fuel generalizing l with
  | zero => rfl
  | succ fuel ih =>
    cases l with
    | nil => rfl
    | cons c cs =>
      have hc : ¬ c = '`' := h c (List.mem_cons_self c cs)
      simp only [codeScan, if_neg hc]
      rw [ih cs fun x hx => h x (List.mem_cons_of_mem c hx)]

theorem fenceScan_id (fuel : Nat) (l : List Char) (h : ∀ c ∈ l, c ≠ '`') :
    fenceScan fuel l = l := by
  induction fuel generalizing l with
  | zero => rfl
  | succ fuel ih =>
    cases l with
    | nil => rfl
    | cons c cs =>
      have hc : ¬ (c = '`' ∧ cs.take 2 = ['`', '`']) :=
        fun hand => h c (List.mem_cons_self c cs) hand.1
      simp only [fenceScan, if_neg hc]
      rw [ih cs fun x hx => h x (List.mem_cons_of_mem c hx)]

theorem linkScan_id (fuel : Nat) (l : List Char) (h : ∀ c ∈ l, c ≠ '[') :
    linkScan fuel l = l := by
  induction fuel generalizing l with
  | zero => rfl
  | succ fuel ih =>
    cases l with
    | nil => rfl
    | cons c cs =>
      have hc : ¬ c = '[' := h c (List.mem_cons_self c cs)
      simp only [linkScan, if_neg hc]
      rw [ih cs fun x hx => h x (List.mem_cons_of_mem c hx)]

theorem bulletMatch_none (l : List Char) (h : ∀ c ∈ l, c ≠ '-' ∧ c ≠ '*' ∧ c ≠ '•') :
    bulletMatch l = none := by
  cases hd : (l.drop (leadCount isWsChar l)).head? with
  | none => simp [bulletMatch, hd]
  | some b =>
    obtain ⟨h1, h2, h3⟩ := h b (mem_of_drop_head? hd)
    simp [bulletMatch, hd, h1, h2, h3]

theorem bulletScan_id (fuel : Nat) (flag : Bool) (l : List Char)
    (h : ∀ c ∈ l, c ≠ '-' ∧ c ≠ '*' ∧ c ≠ '•') :
    bulletScan fuel flag l = l := by
  induction fuel generalizing flag l with
  | zero => rfl
  | succ fuel ih =>
    cases l with
    | nil => rfl
    | cons c cs =>
      have hm : bulletMatch (c :: cs) = none := bulletMatch_none _ h
      have ht : ∀ x ∈ cs, x ≠ '-' ∧ x ≠ '*' ∧ x ≠ '•' :=
        fun x hx => h x (List.mem_cons_of_mem c hx)
      cases flag <;> simp [bulletScan, hm, ih _ cs ht]

theorem numberedMatch_none (l : List Char) (h : ∀ c ∈ l, c ≠ '.') :
    numberedMatch l = none := by
  by_cases hd0 : leadCount Char.isDigit (l.drop (leadCount isWsChar l)) = 0
  · simp [numberedMatch, hd0]
  · have hget : ∀ i : Nat, ¬ (l[i]? = some '.') := by
      intro i hi
      exact h '.' (List.getElem?_mem hi) rfl
    simp [numberedMatch, hd0, hget]

theorem numberedScan_id (fuel : Nat) (flag : Bool) (l : List Char)
    (h : ∀ c ∈ l, c ≠ '.') :
    numberedScan fuel flag l = l := by
  induction fuel generalizing flag l with
  | zero => rfl
  | succ fuel ih =>
    cases l with
    | nil => rfl
    | cons c cs =>
      have hm : numberedMatch (c :: cs) = none := numberedMatch_none _ h
      have ht : ∀ x ∈ cs, x ≠ '.' := fun x hx => h x (List.mem_cons_of_mem c hx)
      cases flag <;> simp [numberedScan, hm, ih _ cs ht]

theorem hruleMatch_none (l : List Char) (h : ∀ c ∈ l, c ≠ '-' ∧ c ≠ '*' ∧ c ≠ '_') :
    hruleMatch l = none := by
  have hk : leadCount isHruleChar l = 0 := by
    apply leadCount_zero
    intro c hc
    obtain ⟨h1, h2, h3⟩ := h c hc
    simp [isHruleChar, h1, h2, h3]
  simp [hruleMatch, hk]

theorem hruleScan_id (fuel : Nat) (flag : Bool) (l : List Char)
    (h : ∀ c ∈ l, c ≠ '-' ∧ c ≠ '*' ∧ c ≠ '_') :
    hruleScan fuel flag l = l := by
  induction fuel generalizing flag l with
  | zero => rfl
  | succ fuel ih =>
    cases l with
    | nil => rfl
    | cons c cs =>
      have hm : hruleMatch (c :: cs) = none := hruleMatch_none _ h
      have ht : ∀ x ∈ cs, x ≠ '-' ∧ x ≠ '*' ∧ x ≠ '_' :=
        fun x hx => h x (List.mem_cons_of_mem c hx)
      cases flag <;> simp [hruleScan, hm, ih _ cs ht]

theorem sanitizeL_noMD (l : List Char)
    (h : ∀ c ∈ l, c ≠ '#' ∧ c ≠ '*' ∧ c ≠ '_' ∧ c ≠ '`' ∧ c ≠ '['
          ∧ c ≠ '-' ∧ c ≠ '•' ∧ c ≠ '.') :
    sanitizeL l = wsNormalizeL l := by
  simp only [sanitizeL]
  rw [headerScan_id _ _ fun c hc => (h c hc).1]
  rw [emphScan_id '*' _ _ fun c hc => (h c hc).2.1]
  rw [emphScan_id '_' _ _ fun c hc => (h c hc).2.2.1]
  rw [codeScan_id _ _ fun c hc => (h c hc).2.2.2.1]
  rw [fenceScan_id _ _ fun c hc => (h c hc).2.2.2.1]
  rw [linkScan_id _ _ fun c hc => (h c hc).2.2.2.2.1]
  rw [bulletScan_id _ true _ fun c hc =>
    ⟨(h c hc).2.2.2.2.2.1, (h c hc).2.1, (h c hc).2.2.2.2.2.2.1⟩]
  rw [numberedScan_id _ true _ fun c hc => (h c hc).2.2.2.2.2.2.2]
  rw [hruleScan_id _ true _ fun c hc =>
    ⟨(h c hc).2.2.2.2.2.1, (h c hc).2.1, (h c hc).2.2.1⟩]

/-- Claim C3 (counterexample). The claim states `sanitize` is idempotent for
every input.  It is not: on `" --- "` the leading space prevents both the
bullet pattern (no whitespace after the first `-`) and the line-anchored
horizontal-rule pattern from matching, so only the final `strip` acts,
yielding `"---"`; feeding that back in, the rule pattern now matches at
the string start and deletes the line, yielding `""`. -/
theorem c3_sanitize_not_idempotent :
    sanitize (sanitize " --- ") ≠ sanitize " --- " ∧
    sanitize " --- " = "---" ∧ sanitize "---" = "" :=
  ⟨by decide, rfl, rfl⟩

/-- Claim C3 (amended). `sanitize` is a pure total function (it is defined
as a Lean function of the text alone), and on text containing none of the
markdown marker characters it returns the text unchanged except for the
whitespace collapsing-and-trimming stage; idempotence, however, does not
hold in general (see the counterexample). -/
theorem c3_sanitize_noMarkdown (s : String) (h : noMarkdown s = true) :
    sanitize s = wsNormalize s := by
  have hfacts : ∀ c ∈ s.data, c ≠ '#' ∧ c ≠ '*' ∧ c ≠ '_' ∧ c ≠ '`' ∧ c ≠ '['
      ∧ c ≠ '-' ∧ c ≠ '•' ∧ c ≠ '.' := by
    intro c hc
    have hx := List.all_eq_true.mp h c hc
    simp only [mdChar, Bool.not_eq_true', Bool.or_eq_false_iff] at hx
    simp only [decide_eq_false_iff_not] at hx
    exact ⟨hx.1.1.1.1.1.1.1, hx.1.1.1.1.1.1.2, hx.1.1.1.1.1.2, hx.1.1.1.1.2,
      hx.1.1.1.2, hx.1.1.2, hx.1.2, hx.2⟩
  show (⟨sanitizeL s.data⟩ : String) = ⟨wsNormalizeL s.data⟩
  rw [sanitizeL_noMD s.data hfacts]

/-- Witness for `c3_sanitize_noMarkdown` on markdown-free text: the
sanitizer only collapses the whitespace. -/
theorem c3_sanitize_noMarkdown_witness :
    noMarkdown "hello   world" = true ∧
    sanitize "hello   world" = wsNormalize "hello   world" ∧
    wsNormalize "hello   world" = "hello world" :=
  ⟨by decide, c3_sanitize_noMarkdown "hello   world" (by decide), by decide⟩
